import Mathlib

/-
Verification of the pycram capability-dispatch and world-synchronization layer.

The development shallowly embeds the relevant code:
  - src/pycram/external_interfaces/giskard.py  (belief-state synchronizer and
    goal-achievement protocol; the remote planner is modeled as an explicit
    list of group names threaded through each call, and every remote mutation
    is recorded as an event),
  - src/pycram/process_modules/hsrb_process_modules.py  (capability manager
    with its twelve per-capability locks and the simulated/real process
    modules), and
  - src/pycram/process_modules/donbot_process_modules.py  (the looking
    capability of the Donbot manager).

Numeric payloads of goals (joint positions, pose coordinates) are carried as
integers: no claim below performs arithmetic on them, they are only moved
around, so the choice of carrier does not matter.
-/

deriving instance DecidableEq for Except

namespace Pycram

/-- A body tracked by the BulletWorld: a stable name, a numeric id (unique
while registered) and the path of its URDF file. -/
structure Obj where
  name : String
  id : Nat
  path : String
deriving DecidableEq

/-- The group name used for an object on the giskard side, built in
giskard.py as obj.name + "_" + str(obj.id). -/
def objName (o : Obj) : String := o.name ++ "_" ++ toString o.id

/-- The locally authoritative World Model: the objects currently loaded in
the BulletWorld, the distinguished robot object (BulletWorld.robot) and the
name the robot carries on the giskard side (robot_description.i.name). -/
structure World where
  objects : List Obj
  robot : Obj
  robotName : String
deriving DecidableEq

/-- The group names of all BulletWorld objects, robot included, as computed
at the top of sync_worlds. -/
def bulletNames (w : World) : List String := w.objects.map objName

/-- One mutation of the remote (giskard) belief state. -/
inductive RemoteMut where
  | clearWorld
  | spawn (name : String)
  | removeGroup (name : String)
deriving DecidableEq

/-- The objects that initial_adding_objects will spawn: every BulletWorld
object that is not the robot and whose group name is not already known to
giskard (the membership test runs against the group list fetched once at the
start of the loop). -/
def toAddObjs (w : World) (groups : List String) : List Obj :=
  w.objects.filter (fun o => decide (¬ o = w.robot ∧ ¬ objName o ∈ groups))

/-- Embedding of initial_adding_objects: returns the remote group list after
the spawns together with the list of remote mutations issued. -/
def initial_adding_objects (w : World) (groups : List String) :
    List String × List RemoteMut :=
  (groups ++ (toAddObjs w groups).map objName,
   (toAddObjs w groups).map (fun o => RemoteMut.spawn (objName o)))

/-- The stale remote identifiers computed by sync_worlds: members of the
remote group list that are neither a BulletWorld group name nor the robot
name (the Python set difference giskard - bullet - robot). -/
def staleNames (w : World) (remote : List String) : List String :=
  remote.filter (fun n => decide (¬ n ∈ bulletNames w ∧ ¬ n = w.robotName))

/-- Embedding of sync_worlds: when the stale set is non-empty the remote
world is cleared, then initial_adding_objects runs. The external clear_world
call of the planner resets its belief state to contain only the robot (the
planner always keeps its own robot; compare the reset scenario of the spec,
whose final set after a clear still contains the robot). -/
def sync_worlds (w : World) (remote : List String) :
    List String × List RemoteMut :=
  if staleNames w remote = [] then
    initial_adding_objects w remote
  else
    ((initial_adding_objects w [w.robotName]).1,
     RemoteMut.clearWorld :: (initial_adding_objects w [w.robotName]).2)

/-- Python exceptions that the embedded code can raise. -/
inductive PyExn where
  | nameError
  | indexError
deriving DecidableEq

/-- Embedding of removing_of_objects. The Python body maps the lambda
obj -> object_names.name + "_" + str(obj.id) over the BulletWorld objects
while the surrounding assignment is still binding the variable object_names:
the lambda reads object_names (a slip for obj) before it exists, so the
first element evaluated raises NameError. With zero objects the lambda never
runs, object_names becomes the empty list, and the set difference makes the
function remove every remote group. -/
def removing_of_objects (w : World) (remote : List String) :
    Except PyExn (List String × List RemoteMut) :=
  match w.objects with
  | [] =>
      let object_names : List String := []
      Except.ok (remote.filter (fun g => decide (g ∈ object_names)),
        (remote.filter (fun g => decide (¬ g ∈ object_names))).map
          RemoteMut.removeGroup)
  | _ :: _ => Except.error PyExn.nameError

/-- The giskard group names of the non-robot BulletWorld objects, as a
finite set of identifiers. -/
def nonRobotNames (w : World) : Finset String :=
  ((w.objects.filter (fun o => decide (¬ o = w.robot))).map objName).toFinset

lemma mem_initial_adding_of_mem {w : World} {groups : List String} {n : String}
    (h : n ∈ groups) : n ∈ (initial_adding_objects w groups).1 :=
  List.mem_append_left _ h

lemma mem_initial_adding_of_obj {w : World} {groups : List String} {o : Obj}
    (ho : o ∈ w.objects) (hr : o ≠ w.robot) :
    objName o ∈ (initial_adding_objects w groups).1 := by
  by_cases hg : objName o ∈ groups
  · exact List.mem_append_left _ hg
  · refine List.mem_append_right _ ?_
    refine List.mem_map.mpr ⟨o, ?_, rfl⟩
    simp [toAddObjs, List.mem_filter, ho, hr, hg]

lemma mem_initial_adding_iff {w : World} {groups : List String} {n : String} :
    n ∈ (initial_adding_objects w groups).1 ↔
      n ∈ groups ∨ ∃ o ∈ toAddObjs w groups, objName o = n := by
  simp [initial_adding_objects, List.mem_append, List.mem_map]

lemma toAddObjs_subset {w : World} {groups : List String} {o : Obj}
    (h : o ∈ toAddObjs w groups) :
    o ∈ w.objects ∧ o ≠ w.robot ∧ objName o ∉ groups := by
  have := List.mem_filter.mp h
  simpa [toAddObjs] using List.mem_filter.mp h

/-- Every non-robot object of the world is present remotely after
sync_worlds, whatever the initial remote state was. -/
lemma nonrobot_mem_sync (w : World) (r : List String) {o : Obj}
    (ho : o ∈ w.objects) (hr : o ≠ w.robot) :
    objName o ∈ (sync_worlds w r).1 := by
  unfold sync_worlds
  by_cases h : staleNames w r = [] <;>
    simp only [h, if_true, if_false, reduceIte] <;>
    exact mem_initial_adding_of_obj ho hr

/-- Every identifier present remotely after sync_worlds is either a
BulletWorld group name, the robot name, or a non-stale member of the
original remote state. -/
lemma mem_sync_cases (w : World) (r : List String) {n : String}
    (h : n ∈ (sync_worlds w r).1) :
    n ∈ bulletNames w ∨ n = w.robotName := by
  unfold sync_worlds at h
  by_cases hs : staleNames w r = []
  · simp only [hs, reduceIte] at h
    rcases mem_initial_adding_iff.mp h with hr | ⟨o, hm, rfl⟩
    · have : ¬ (¬ n ∈ bulletNames w ∧ ¬ n = w.robotName) := by
        intro hcon
        have : n ∈ staleNames w r := by
          simp [staleNames, List.mem_filter, hr, hcon.1, hcon.2]
        simp [hs] at this
      by_cases hb : n ∈ bulletNames w
      · exact Or.inl hb
      · right
        by_contra hne
        exact this ⟨hb, hne⟩
    · exact Or.inl (List.mem_map.mpr ⟨o, (toAddObjs_subset hm).1, rfl⟩)
  · simp only [hs, reduceIte] at h
    rcases mem_initial_adding_iff.mp h with hr | ⟨o, hm, rfl⟩
    · right
      simpa using hr
    · exact Or.inl (List.mem_map.mpr ⟨o, (toAddObjs_subset hm).1, rfl⟩)

/-- C1 (amended): provided the robot identifier is already present in the
remote belief state, after sync_worlds the remote identifiers form a
superset of the non-robot BulletWorld identifiers united with the robot
identifier; and whenever a stale identifier is present remotely, the remote
state is cleared and rebuilt, so the final remote set equals exactly the
non-robot identifiers plus the robot. (The unconditional superset of the
original claim fails: when the robot identifier is missing remotely and no
drift is detected, sync_worlds never spawns the robot, see the
counterexample.) -/
theorem sync_worlds_remote_superset (w : World) (r : List String) :
    (w.robotName ∈ r →
      insert w.robotName (nonRobotNames w) ⊆ (sync_worlds w r).1.toFinset) ∧
    (staleNames w r ≠ [] →
      (sync_worlds w r).1.toFinset = insert w.robotName (nonRobotNames w)) := by
  constructor
  · intro hrob
    rw [Finset.insert_subset_iff]
    constructor
    · rw [List.mem_toFinset]
      unfold sync_worlds
      by_cases hs : staleNames w r = []
      · simp only [hs, reduceIte]
        exact mem_initial_adding_of_mem hrob
      · simp only [hs, reduceIte]
        exact mem_initial_adding_of_mem (by simp)
    · intro n hn
      rw [nonRobotNames, List.mem_toFinset] at hn
      rcases List.mem_map.mp hn with ⟨o, ho, rfl⟩
      have ho' := List.mem_filter.mp ho
      have hr : o ≠ w.robot := by simpa using ho'.2
      exact List.mem_toFinset.mpr (nonrobot_mem_sync w r ho'.1 hr)
  · intro hs
    unfold sync_worlds
    simp only [hs, reduceIte]
    ext n
    simp only [List.mem_toFinset, Finset.mem_insert, nonRobotNames,
      mem_initial_adding_iff]
    constructor
    · intro h
      rcases h with h | ⟨o, hm, rfl⟩
      · exact Or.inl (by simpa using h)
      · rcases toAddObjs_subset hm with ⟨ho, hr, _⟩
        exact Or.inr
          (List.mem_map.mpr ⟨o, List.mem_filter.mpr ⟨ho, by simp [hr]⟩, rfl⟩)
    · intro h
      rcases h with h | h
      · exact Or.inl (by simp [h])
      · rcases List.mem_map.mp h with ⟨o, ho, rfl⟩
        have ho' := List.mem_filter.mp ho
        have hr : o ≠ w.robot := by simpa using ho'.2
        by_cases hn : objName o ∈ ([w.robotName] : List String)
        · exact Or.inl (by simpa using hn)
        · refine Or.inr ⟨o, ?_, rfl⟩
          have hn' : ¬ objName o = w.robotName := by simpa using hn
          simp [toAddObjs, List.mem_filter, ho'.1, hr, hn']

/-- The robot used in the concrete scenarios below. -/
def exRobot : Obj := { name := "hsrb", id := 0, path := "hsrb.urdf" }

/-- A World Model containing only the robot. -/
def exWorldRobotOnly : World :=
  { objects := [exRobot], robot := exRobot, robotName := "hsrb" }

/-- C1 counterexample: with a World Model containing only the robot and an
empty remote belief state, no drift is detected and nothing is spawned, so
after sync_worlds the remote set is empty and does not contain the robot
identifier; the unconditional superset of the claim is false. -/
theorem sync_worlds_superset_cex :
    ¬ insert "hsrb" (nonRobotNames exWorldRobotOnly) ⊆
      (sync_worlds exWorldRobotOnly []).1.toFinset := by decide

def exCup : Obj := { name := "cup", id := 1, path := "cup.urdf" }

def exBowl : Obj := { name := "bowl", id := 2, path := "bowl.urdf" }

/-- The World Model of the reset scenario: robot, cup_1 and bowl_2. -/
def exWorld : World :=
  { objects := [exRobot, exCup, exBowl], robot := exRobot, robotName := "hsrb" }

/-- Witness for the amended C1 theorem, on the reset scenario of the spec:
remote state starts as the robot plus the stale identifier table_9. -/
theorem sync_worlds_remote_superset_witness :
    insert "hsrb" (nonRobotNames exWorld) ⊆
      (sync_worlds exWorld ["hsrb", "table_9"]).1.toFinset ∧
    (sync_worlds exWorld ["hsrb", "table_9"]).1.toFinset =
      insert "hsrb" (nonRobotNames exWorld) :=
  ⟨(sync_worlds_remote_superset exWorld ["hsrb", "table_9"]).1 (by decide),
   (sync_worlds_remote_superset exWorld ["hsrb", "table_9"]).2 (by decide)⟩

/-- C3: sync_worlds is idempotent. Running it a second time on the remote
state produced by a first run, with an unchanged World Model, issues zero
remote mutations: no clear, no spawn, no removal. -/
theorem sync_worlds_idempotent (w : World) (r : List String) :
    (sync_worlds w ((sync_worlds w r).1)).2 = [] := by
  have hstale : staleNames w ((sync_worlds w r).1) = [] := by
    apply List.filter_eq_nil_iff.mpr
    intro n hn
    rcases mem_sync_cases w r hn with hb | he
    · simp [hb]
    · simp [he]
  have hadd : toAddObjs w ((sync_worlds w r).1) = [] := by
    apply List.filter_eq_nil_iff.mpr
    intro o ho
    by_cases hr : o = w.robot
    · simp [hr]
    · have := nonrobot_mem_sync w r ho hr
      simp [hr, this]
  conv_lhs => rw [sync_worlds]
  simp [hstale, initial_adding_objects, hadd]

/-- The terminal result of one plan_and_execute round of the remote
planner. -/
inductive MoveResult where
  | succeeded
  | failed (reason : String)
  | rejected (reason : String)
deriving DecidableEq

/-- The goal description handed to the remote planner by one of the
achieve functions of giskard.py. -/
inductive GoalDesc where
  | joint (goal_poses : List (String × Int))
  | cartesian (position orientation : List Int) (tip_link root_link : String)
  | straightCartesian (position orientation : List Int)
      (tip_link root_link : String)
  | translation (goal_point : List Int) (tip_link root_link : String)
  | rotationGoal (quat : List Int) (tip_link root_link : String)
  | alignPlanes (goal_normal : List Int) (tip_link : String)
      (tip_normal : List Int) (root_link : String)
  | openContainer (tip_link environment_link : String)
  | closeContainer (tip_link environment_link : String)
deriving DecidableEq

/-- One observable call made by giskard.py on the remote planner. -/
inductive GEvent where
  | remoteMut (m : RemoteMut)
  | avoidAllCollisions
  | allowSelfCollision
  | avoidCollision (a b : String)
  | setGoal (d : GoalDesc)
  | planAndExecute
deriving DecidableEq

/-- Whether an event applies a collision policy. -/
def isCollisionPolicy : GEvent → Bool
  | GEvent.avoidAllCollisions => true
  | GEvent.allowSelfCollision => true
  | GEvent.avoidCollision _ _ => true
  | _ => false

/-- The shape every achieve function of giskard.py factually has: run
sync_worlds, set the goal, then plan_and_execute and hand its terminal
result back. The components are: returned result, remote state after the
call, trace of planner calls. -/
def goalCallSpec (w : World) (r : List String) (planner : MoveResult)
    (d : GoalDesc) : MoveResult × List String × List GEvent :=
  (planner, (sync_worlds w r).1,
   (sync_worlds w r).2.map GEvent.remoteMut ++
     [GEvent.setGoal d, GEvent.planAndExecute])

/-- Embedding of achieve_joint_goal. The planner argument stands for the
terminal result the blocking plan_and_execute call eventually returns. -/
def achieve_joint_goal (w : World) (r : List String) (planner : MoveResult)
    (goal_poses : List (String × Int)) :
    MoveResult × List String × List GEvent :=
  (planner, (sync_worlds w r).1,
   (sync_worlds w r).2.map GEvent.remoteMut ++
     [GEvent.setGoal (GoalDesc.joint goal_poses), GEvent.planAndExecute])

/-- Embedding of achieve_cartesian_goal. -/
def achieve_cartesian_goal (w : World) (r : List String)
    (planner : MoveResult) (position orientation : List Int)
    (tip_link root_link : String) :
    MoveResult × List String × List GEvent :=
  (planner, (sync_worlds w r).1,
   (sync_worlds w r).2.map GEvent.remoteMut ++
     [GEvent.setGoal (GoalDesc.cartesian position orientation tip_link
        root_link), GEvent.planAndExecute])

/-- Embedding of achieve_straight_cartesian_goal. -/
def achieve_straight_cartesian_goal (w : World) (r : List String)
    (planner : MoveResult) (position orientation : List Int)
    (tip_link root_link : String) :
    MoveResult × List String × List GEvent :=
  (planner, (sync_worlds w r).1,
   (sync_worlds w r).2.map GEvent.remoteMut ++
     [GEvent.setGoal (GoalDesc.straightCartesian position orientation
        tip_link root_link), GEvent.planAndExecute])

/-- Embedding of achieve_translation_goal. -/
def achieve_translation_goal (w : World) (r : List String)
    (planner : MoveResult) (goal_point : List Int)
    (tip_link root_link : String) :
    MoveResult × List String × List GEvent :=
  (planner, (sync_worlds w r).1,
   (sync_worlds w r).2.map GEvent.remoteMut ++
     [GEvent.setGoal (GoalDesc.translation goal_point tip_link root_link),
      GEvent.planAndExecute])

/-- Embedding of achieve_rotation_goal. -/
def achieve_rotation_goal (w : World) (r : List String)
    (planner : MoveResult) (quat : List Int) (tip_link root_link : String) :
    MoveResult × List String × List GEvent :=
  (planner, (sync_worlds w r).1,
   (sync_worlds w r).2.map GEvent.remoteMut ++
     [GEvent.setGoal (GoalDesc.rotationGoal quat tip_link root_link),
      GEvent.planAndExecute])

/-- Embedding of achieve_align_planes_goal. -/
def achieve_align_planes_goal (w : World) (r : List String)
    (planner : MoveResult) (goal_normal : List Int) (tip_link : String)
    (tip_normal : List Int) (root_link : String) :
    MoveResult × List String × List GEvent :=
  (planner, (sync_worlds w r).1,
   (sync_worlds w r).2.map GEvent.remoteMut ++
     [GEvent.setGoal (GoalDesc.alignPlanes goal_normal tip_link tip_normal
        root_link), GEvent.planAndExecute])

/-- Embedding of achieve_open_container_goal. -/
def achieve_open_container_goal (w : World) (r : List String)
    (planner : MoveResult) (tip_link environment_link : String) :
    MoveResult × List String × List GEvent :=
  (planner, (sync_worlds w r).1,
   (sync_worlds w r).2.map GEvent.remoteMut ++
     [GEvent.setGoal (GoalDesc.openContainer tip_link environment_link),
      GEvent.planAndExecute])

/-- Embedding of achieve_close_container_goal. -/
def achieve_close_container_goal (w : World) (r : List String)
    (planner : MoveResult) (tip_link environment_link : String) :
    MoveResult × List String × List GEvent :=
  (planner, (sync_worlds w r).1,
   (sync_worlds w r).2.map GEvent.remoteMut ++
     [GEvent.setGoal (GoalDesc.closeContainer tip_link environment_link),
      GEvent.planAndExecute])

lemma remoteMut_no_collision (ms : List RemoteMut) :
    (ms.map GEvent.remoteMut).filter isCollisionPolicy = [] := by
  induction ms with
  | nil => rfl
  | cons m ms ih => simp [isCollisionPolicy, ih]

/-- C2 counterexample: the claim says each goal method applies the
caller-specified collision policy between the reconciliation and the goal
submission; in fact the trace of achieve_joint_goal contains no collision
policy application at all (callers invoke the collision functions
separately, before the method, hence before the reconciliation). -/
theorem achieve_joint_goal_no_collision_step :
    ¬ ∃ e ∈ (achieve_joint_goal exWorldRobotOnly [] MoveResult.succeeded
        []).2.2, isCollisionPolicy e = true := by decide

/-- C2 (amended): every goal-achievement method performs the same fixed
sequence on each call: belief-state reconciliation, then submission of the
goal description, then the blocking plan-and-execute whose terminal result
is returned to the caller unchanged. No collision-policy call occurs inside
the methods; the caller configures the one-shot collision policy separately
before invoking a method, hence before the reconciliation, not between
reconciliation and submission. -/
theorem achieve_methods_fixed_sequence :
    (∀ w r p g, achieve_joint_goal w r p g =
        goalCallSpec w r p (GoalDesc.joint g)) ∧
    (∀ w r p pos ori tip root, achieve_cartesian_goal w r p pos ori tip root
        = goalCallSpec w r p (GoalDesc.cartesian pos ori tip root)) ∧
    (∀ w r p pos ori tip root,
        achieve_straight_cartesian_goal w r p pos ori tip root =
          goalCallSpec w r p (GoalDesc.straightCartesian pos ori tip root)) ∧
    (∀ w r p pt tip root, achieve_translation_goal w r p pt tip root =
        goalCallSpec w r p (GoalDesc.translation pt tip root)) ∧
    (∀ w r p q tip root, achieve_rotation_goal w r p q tip root =
        goalCallSpec w r p (GoalDesc.rotationGoal q tip root)) ∧
    (∀ w r p gn tip tn root, achieve_align_planes_goal w r p gn tip tn root
        = goalCallSpec w r p (GoalDesc.alignPlanes gn tip tn root)) ∧
    (∀ w r p tip env, achieve_open_container_goal w r p tip env =
        goalCallSpec w r p (GoalDesc.openContainer tip env)) ∧
    (∀ w r p tip env, achieve_close_container_goal w r p tip env =
        goalCallSpec w r p (GoalDesc.closeContainer tip env)) ∧
    (∀ w r p d, (goalCallSpec w r p d).1 = p ∧
        (goalCallSpec w r p d).2.2.filter isCollisionPolicy = []) := by
  refine ⟨fun _ _ _ _ => rfl, fun _ _ _ _ _ _ _ => rfl,
    fun _ _ _ _ _ _ _ => rfl, fun _ _ _ _ _ _ => rfl,
    fun _ _ _ _ _ _ => rfl, fun _ _ _ _ _ _ _ => rfl,
    fun _ _ _ _ _ => rfl, fun _ _ _ _ _ => rfl, fun w r p d => ⟨rfl, ?_⟩⟩
  simp [goalCallSpec, List.filter_append, remoteMut_no_collision,
    isCollisionPolicy]

/-- C8: for every World Model containing at least one object,
removing_of_objects raises NameError (the mapping lambda reads the variable
object_names before the enclosing assignment binds it), so the call removes
no identifier from the remote belief state. -/
theorem removing_of_objects_raises (w : World) (r : List String)
    (h : w.objects ≠ []) :
    removing_of_objects w r = Except.error PyExn.nameError := by
  cases hw : w.objects with
  | nil => exact absurd hw h
  | cons o os => simp [removing_of_objects, hw]

/-- Witness for C8: a world holding one cup object raises NameError. -/
theorem removing_of_objects_raises_witness :
    removing_of_objects
        { objects := [exCup], robot := exRobot, robotName := "hsrb" }
        ["cup_1"] = Except.error PyExn.nameError :=
  removing_of_objects_raises
    { objects := [exCup], robot := exRobot, robotName := "hsrb" }
    ["cup_1"] (by decide)

/-- The tag of a giskard WorldBody message. -/
inductive WBType where
  | URDF_BODY
  | PRIMITIVE_BODY
  | MESH_BODY
deriving DecidableEq

/-- A giskard WorldBody message, reduced to the fields make_world_body
assigns. -/
structure WorldBody where
  type : WBType
  urdf : String
deriving DecidableEq

/-- Embedding of make_world_body. The function reading the URDF file is an
explicit argument standing for the filesystem. The Python body initializes
urdf_string to the empty string, reads the file into the misspelled and
never used variable urdf_sting, and assigns urdf_string to the message. -/
def make_world_body (readFile : String → String) (object : Obj) :
    WorldBody :=
  let urdf_string : String := ""
  let urdf_sting : String := readFile object.path
  { type := WBType.URDF_BODY, urdf := urdf_string }

/-- C9: whatever the URDF file of the object holds, the WorldBody built by
make_world_body carries the empty string in its urdf field, because the
file contents land in the unused misspelled variable. -/
theorem make_world_body_urdf_empty (readFile : String → String)
    (object : Obj) :
    make_world_body readFile object =
      { type := WBType.URDF_BODY, urdf := "" } := rfl

/-- The process-wide execution mode read by the managers. -/
inductive Mode where
  | simulated
  | real
deriving DecidableEq, Fintype

/-- The concrete process-module classes defined in the two manager files. -/
inductive PMImpl where
  | HSRBNavigation
  | HSRBPickUp
  | HSRBPlace
  | HSRBMoveHead
  | HSRBMoveGripper
  | HSRBDetecting
  | HSRBMoveTCP
  | HSRBMoveArmJoints
  | HSRBMoveJoints
  | HSRBWorldStateDetecting
  | HSRBOpen
  | HSRBClose
  | HSRBNavigationReal
  | HSRBPickUpReal
  | HSRBPlaceReal
  | HSRBMoveHeadReal
  | HSRBDetectingReal
  | HSRBMoveTCPReal
  | HSRBMoveArmJointsReal
  | HSRBMoveJointsReal
  | HSRBMoveGripperReal
  | HSRBOpenReal
  | HSRBCloseReal
  | DonbotMoveHead
deriving DecidableEq, Fintype

/-- The fixed capability set of the HSRB manager; openCap and closeCap
stand for the source methods named open and close. -/
inductive Cap where
  | navigate
  | pick_up
  | place
  | looking
  | detecting
  | move_tcp
  | move_arm_joints
  | world_state_detecting
  | move_joints
  | move_gripper
  | openCap
  | closeCap
deriving DecidableEq, Fintype

/-- The HSRB manager state: the twelve per-capability locks created in its
constructor. Lock identity is a natural number; each Lock() call of the
constructor allocates a fresh lock object, modeled by giving the locks
consecutive identifiers in creation order. -/
structure HSRBManager where
  navigate_lock : Nat
  pick_up_lock : Nat
  place_lock : Nat
  looking_lock : Nat
  detecting_lock : Nat
  move_tcp_lock : Nat
  move_arm_joints_lock : Nat
  world_state_detecting_lock : Nat
  move_joints_lock : Nat
  move_gripper_lock : Nat
  open_lock : Nat
  close_lock : Nat
deriving DecidableEq

/-- The manager as built by the HSRBManager constructor: twelve freshly
allocated locks, numbered in the order the constructor creates them. -/
def mkHSRBManager : HSRBManager :=
  { navigate_lock := 0, pick_up_lock := 1, place_lock := 2,
    looking_lock := 3, detecting_lock := 4, move_tcp_lock := 5,
    move_arm_joints_lock := 6, world_state_detecting_lock := 7,
    move_joints_lock := 8, move_gripper_lock := 9, open_lock := 10,
    close_lock := 11 }

/-- The lock field the manager owns for each capability. -/
def capLock (m : HSRBManager) : Cap → Nat
  | Cap.navigate => m.navigate_lock
  | Cap.pick_up => m.pick_up_lock
  | Cap.place => m.place_lock
  | Cap.looking => m.looking_lock
  | Cap.detecting => m.detecting_lock
  | Cap.move_tcp => m.move_tcp_lock
  | Cap.move_arm_joints => m.move_arm_joints_lock
  | Cap.world_state_detecting => m.world_state_detecting_lock
  | Cap.move_joints => m.move_joints_lock
  | Cap.move_gripper => m.move_gripper_lock
  | Cap.openCap => m.open_lock
  | Cap.closeCap => m.close_lock

/-- Embedding of the twelve lookup methods of HSRBManager: each returns the
process module constructed for the current execution mode together with the
lock passed to its constructor. The world_state_detecting method tests for
simulated or real in a single branch and hands out the simulated
implementation in both modes. -/
def lookupHSRB (m : HSRBManager) : Cap → Mode → Option (PMImpl × Nat)
  | Cap.navigate, Mode.simulated =>
      some (PMImpl.HSRBNavigation, m.navigate_lock)
  | Cap.navigate, Mode.real =>
      some (PMImpl.HSRBNavigationReal, m.navigate_lock)
  | Cap.pick_up, Mode.simulated => some (PMImpl.HSRBPickUp, m.pick_up_lock)
  | Cap.pick_up, Mode.real => some (PMImpl.HSRBPickUpReal, m.pick_up_lock)
  | Cap.place, Mode.simulated => some (PMImpl.HSRBPlace, m.place_lock)
  | Cap.place, Mode.real => some (PMImpl.HSRBPlaceReal, m.place_lock)
  | Cap.looking, Mode.simulated =>
      some (PMImpl.HSRBMoveHead, m.looking_lock)
  | Cap.looking, Mode.real =>
      some (PMImpl.HSRBMoveHeadReal, m.looking_lock)
  | Cap.detecting, Mode.simulated =>
      some (PMImpl.HSRBDetecting, m.detecting_lock)
  | Cap.detecting, Mode.real =>
      some (PMImpl.HSRBDetectingReal, m.detecting_lock)
  | Cap.move_tcp, Mode.simulated =>
      some (PMImpl.HSRBMoveTCP, m.move_tcp_lock)
  | Cap.move_tcp, Mode.real =>
      some (PMImpl.HSRBMoveTCPReal, m.move_tcp_lock)
  | Cap.move_arm_joints, Mode.simulated =>
      some (PMImpl.HSRBMoveArmJoints, m.move_arm_joints_lock)
  | Cap.move_arm_joints, Mode.real =>
      some (PMImpl.HSRBMoveArmJointsReal, m.move_arm_joints_lock)
  | Cap.world_state_detecting, Mode.simulated =>
      some (PMImpl.HSRBWorldStateDetecting, m.world_state_detecting_lock)
  | Cap.world_state_detecting, Mode.real =>
      some (PMImpl.HSRBWorldStateDetecting, m.world_state_detecting_lock)
  | Cap.move_joints, Mode.simulated =>
      some (PMImpl.HSRBMoveJoints, m.move_joints_lock)
  | Cap.move_joints, Mode.real =>
      some (PMImpl.HSRBMoveJointsReal, m.move_joints_lock)
  | Cap.move_gripper, Mode.simulated =>
      some (PMImpl.HSRBMoveGripper, m.move_gripper_lock)
  | Cap.move_gripper, Mode.real =>
      some (PMImpl.HSRBMoveGripperReal, m.move_gripper_lock)
  | Cap.openCap, Mode.simulated => some (PMImpl.HSRBOpen, m.open_lock)
  | Cap.openCap, Mode.real => some (PMImpl.HSRBOpenReal, m.open_lock)
  | Cap.closeCap, Mode.simulated => some (PMImpl.HSRBClose, m.close_lock)
  | Cap.closeCap, Mode.real => some (PMImpl.HSRBCloseReal, m.close_lock)

/-- The implementation class the HSRB dispatcher selects for a capability
in a given mode. -/
def implOf (c : Cap) (mode : Mode) : Option PMImpl :=
  (lookupHSRB mkHSRBManager c mode).map Prod.fst

/-- The errors the dispatch layer is claimed to produce. -/
inductive DispatchExn where
  | unsupportedCapability
deriving DecidableEq

/-- Embedding of DonbotManager.looking. The method has a branch only for
the simulated execution type; for real mode control falls off the end of
the Python function body and None is returned. The Except layer records
that no exception of any kind is raised on the way. -/
def donbot_looking (mode : Mode) : Except DispatchExn (Option PMImpl) :=
  match mode with
  | Mode.simulated => Except.ok (some PMImpl.DonbotMoveHead)
  | Mode.real => Except.ok none

/-- C4 counterexample: requesting the looking capability of the Donbot
manager in real mode, for which no implementation is registered, does not
fail with an UnsupportedCapability error; the lookup simply returns None. -/
theorem donbot_looking_real_not_error :
    donbot_looking Mode.real ≠
        Except.error DispatchExn.unsupportedCapability ∧
    donbot_looking Mode.real = Except.ok none := by decide

/-- C4 (amended): when no implementation is registered for the requested
capability and execution mode, the lookup returns None without raising
anything; the caller receives no module and no typed UnsupportedCapability
failure is produced at this layer. -/
theorem donbot_looking_unregistered_returns_none :
    donbot_looking Mode.real = Except.ok none ∧
    donbot_looking Mode.simulated =
      Except.ok (some PMImpl.DonbotMoveHead) := by decide

/-- C6: the HSRB manager owns one dedicated lock per capability: the twelve
locks created by the constructor are pairwise distinct across capabilities,
and every lookup, in either execution mode, hands the implementation the
lock owned by that very capability. -/
theorem hsrb_per_capability_locks :
    (∀ c1 c2 : Cap, c1 ≠ c2 →
        capLock mkHSRBManager c1 ≠ capLock mkHSRBManager c2) ∧
    (∀ (c : Cap) (mode : Mode),
        (lookupHSRB mkHSRBManager c mode).map Prod.snd =
          some (capLock mkHSRBManager c)) := by decide

/-- Witness for C6 at concrete capabilities: navigate and detecting use
different locks, and the real-mode detecting lookup carries the detecting
lock. -/
theorem hsrb_per_capability_locks_witness :
    capLock mkHSRBManager Cap.navigate ≠
        capLock mkHSRBManager Cap.detecting ∧
    (lookupHSRB mkHSRBManager Cap.detecting Mode.real).map Prod.snd =
      some (capLock mkHSRBManager Cap.detecting) :=
  ⟨hsrb_per_capability_locks.1 Cap.navigate Cap.detecting (by decide),
   hsrb_per_capability_locks.2 Cap.detecting Mode.real⟩

/-- C7 counterexample: the world_state_detecting capability does not have
two distinct implementations; the dispatcher selects the same simulated
implementation in both execution modes. -/
theorem world_state_detecting_not_distinct :
    ¬ ∃ a b : PMImpl,
        implOf Cap.world_state_detecting Mode.simulated = some a ∧
        implOf Cap.world_state_detecting Mode.real = some b ∧
        a ≠ b := by decide

/-- C7 (amended): in the HSRB manager every capability except
world_state_detecting has two distinct registered implementations, one
selected in simulated and one in real mode; world_state_detecting selects
the same simulated implementation in both modes; and the Donbot manager
registers only a simulated implementation for looking. -/
theorem capability_implementations_by_mode :
    (∀ c : Cap, c ≠ Cap.world_state_detecting →
        ∃ a b : PMImpl, implOf c Mode.simulated = some a ∧
          implOf c Mode.real = some b ∧ a ≠ b) ∧
    implOf Cap.world_state_detecting Mode.simulated =
        some PMImpl.HSRBWorldStateDetecting ∧
    implOf Cap.world_state_detecting Mode.real =
        some PMImpl.HSRBWorldStateDetecting ∧
    donbot_looking Mode.simulated =
        Except.ok (some PMImpl.DonbotMoveHead) ∧
    donbot_looking Mode.real = Except.ok none := by decide

/-- Witness for the amended C7 at the navigate capability. -/
theorem capability_implementations_by_mode_witness :
    ∃ a b : PMImpl, implOf Cap.navigate Mode.simulated = some a ∧
      implOf Cap.navigate Mode.real = some b ∧ a ≠ b :=
  capability_implementations_by_mode.1 Cap.navigate (by decide)

/-- An object as seen by the detection modules: its BulletWorld name, its
object type, and whether the external visibility reasoner
(bullet_world_reasoning.visible, physics out of scope) reports it visible
from the robot camera. -/
structure DetObj where
  name : String
  type : String
  visible : Bool
deriving DecidableEq

/-- The BulletWorld as read by the detection modules. -/
structure DetWorld where
  objects : List DetObj
deriving DecidableEq

/-- Embedding of BulletWorld.get_objects_by_type. -/
def get_objects_by_type (w : DetWorld) (t : String) : List DetObj :=
  w.objects.filter (fun o => decide (o.type = t))

/-- Embedding of HSRBDetecting._execute: walk the objects of the requested
type and return the first visible one; when the loop finds none, the Python
function falls off the end and returns None. -/
def HSRBDetecting_execute (w : DetWorld) (t : String) : Option DetObj :=
  (get_objects_by_type w t).find? (fun o => o.visible)

/-- Embedding of HSRBWorldStateDetecting._execute: index 0 of the filtered
object list; on an empty filter result the Python indexing raises
IndexError. -/
def HSRBWorldStateDetecting_execute (w : DetWorld) (t : String) :
    Except PyExn DetObj :=
  match w.objects.filter (fun o => decide (o.type = t)) with
  | [] => Except.error PyExn.indexError
  | o :: _ => Except.ok o

/-- C5 counterexample: on a world without any object of the requested type,
field-of-view detection returns None (an empty success, not a typed
failure) and world-state detection raises IndexError (an exceptional
crash), contradicting the claim that a typed not-found failure is returned
and that no exceptional crash occurs. -/
theorem detection_no_typed_failure_cex :
    HSRBDetecting_execute { objects := [] } "milk" = none ∧
    HSRBWorldStateDetecting_execute { objects := [] } "milk" =
      Except.error PyExn.indexError := by decide

/-- C5 (amended): when no object of the requested type is visible, the
field-of-view detection module returns None, an empty result rather than a
typed not-found failure; and when no object of the requested type is
present at all, the world-state detection module raises IndexError instead
of returning a typed failure. -/
theorem detection_not_found_behavior (w : DetWorld) (t : String) :
    ((∀ o ∈ get_objects_by_type w t, o.visible = false) →
      HSRBDetecting_execute w t = none) ∧
    (w.objects.filter (fun o => decide (o.type = t)) = [] →
      HSRBWorldStateDetecting_execute w t = Except.error PyExn.indexError) := by
  constructor
  · intro h
    unfold HSRBDetecting_execute
    rw [List.find?_eq_none]
    intro o ho
    simp [h o ho]
  · intro h
    simp [HSRBWorldStateDetecting_execute, h]

/-- Witness for the amended C5 on a concrete empty world. -/
theorem detection_not_found_behavior_witness :
    HSRBDetecting_execute { objects := [] } "bowl" = none ∧
    HSRBWorldStateDetecting_execute { objects := [] } "bowl" =
      Except.error PyExn.indexError :=
  ⟨(detection_not_found_behavior { objects := [] } "bowl").1 (by decide),
   (detection_not_found_behavior { objects := [] } "bowl").2 (by decide)⟩

/-- A move-arm-joints Intent: joint targets for each arm. A missing or
empty dictionary of the Python designator is the empty list, matching the
Python truthiness tests on these fields. -/
structure MoveArmJointsMotion where
  left_arm_poses : List (String × Int)
  right_arm_poses : List (String × Int)
deriving DecidableEq

/-- Embedding of Object.set_joint_states on a joint-state valuation. -/
def set_joint_states (poses : List (String × Int)) (st : String → Int) :
    String → Int :=
  poses.foldl (fun s jp => Function.update s jp.1 jp.2) st

/-- Embedding of the simulated HSRBMoveArmJoints._execute: apply the right
arm targets when present, then the left arm targets when present, to the
robot joint states. -/
def HSRBMoveArmJoints_execute (d : MoveArmJointsMotion)
    (st : String → Int) : String → Int :=
  let st1 := if d.right_arm_poses = [] then st
    else set_joint_states d.right_arm_poses st
  if d.left_arm_poses = [] then st1 else set_joint_states d.left_arm_poses st1

/-- Embedding of the real HSRBMoveArmJointsReal._execute: build the goal
dictionary from an empty dictionary updated with the left arm targets only,
call avoid_all_collisions, then achieve_joint_goal. -/
def HSRBMoveArmJointsReal_execute (w : World) (r : List String)
    (planner : MoveResult) (d : MoveArmJointsMotion) :
    MoveResult × List String × List GEvent :=
  let joint_goals : List (String × Int) :=
    if d.left_arm_poses = [] then [] else [] ++ d.left_arm_poses
  ((achieve_joint_goal w r planner joint_goals).1,
   (achieve_joint_goal w r planner joint_goals).2.1,
   GEvent.avoidAllCollisions ::
     (achieve_joint_goal w r planner joint_goals).2.2)

/-- C10: the real move-arm-joints implementation submits a joint goal built
only from the left-arm targets, so the right-arm targets of the Intent are
silently discarded (the outcome is unchanged when they are dropped), while
the simulated implementation applies the right-arm and then the left-arm
targets to the robot. -/
theorem move_arm_joints_real_discards_right :
    (∀ w r p d, HSRBMoveArmJointsReal_execute w r p d =
        HSRBMoveArmJointsReal_execute w r p
          { left_arm_poses := d.left_arm_poses, right_arm_poses := [] }) ∧
    (∀ w r p d, (HSRBMoveArmJointsReal_execute w r p d).2.2 =
        GEvent.avoidAllCollisions ::
          ((sync_worlds w r).2.map GEvent.remoteMut ++
            [GEvent.setGoal (GoalDesc.joint d.left_arm_poses),
             GEvent.planAndExecute])) ∧
    (∀ d st, HSRBMoveArmJoints_execute d st =
        set_joint_states d.left_arm_poses
          (set_joint_states d.right_arm_poses st)) := by
  refine ⟨fun w r p d => rfl, fun w r p d => ?_, fun d st => ?_⟩
  · by_cases h : d.left_arm_poses = [] <;>
      simp [HSRBMoveArmJointsReal_execute, achieve_joint_goal, h]
  · by_cases hr : d.right_arm_poses = [] <;>
      by_cases hl : d.left_arm_poses = [] <;>
      simp [HSRBMoveArmJoints_execute, hr, hl, set_joint_states]

end Pycram
